import Mathlib

/-
Verification of the response-decoding core of the plaid-go client library.

The Go source is embedded shallowly:

* JSON documents are modelled by the inductive `Json`; a raw HTTP body is an
  `Option Json`, where `none` stands for bytes that are not well-formed JSON
  (in which case every json.Unmarshal call fails with a syntax error).
* JSON numbers are modelled by `Int`; no decoded field in the claims under
  study carries a fractional value, so float64/float32 struct fields are
  modelled as integers as well.
* Go errors are modelled by the inductive `GoErr`: `jsonErr` for errors
  produced by json.Unmarshal itself, `newErr` for errors built with
  errors.New, and `plaidErr` for the plaidError value type.
* json.Unmarshal into a tagged struct is modelled field by field: an absent
  key or a JSON null leaves the field at its Go zero value, a key of the
  wrong JSON type is an unmarshal error, unknown keys are ignored.  Field
  matching is by exact tag name; duplicate keys resolve to the last
  occurrence (as Go map/struct decoding does for successful parses).
* HTTP status codes are modelled as `Nat` (they are nonnegative in practice).
-/

/-- A parsed JSON document. -/
inductive Json where
  | null
  | bool (b : Bool)
  | num (n : Int)
  | str (s : String)
  | arr (elems : List Json)
  | obj (fields : List (String × Json))

/-- Field lookup in a JSON object: the last occurrence of the key wins,
matching Go's behaviour for duplicate keys in both map and struct decoding. -/
def lookupField (fields : List (String × Json)) (key : String) : Option Json :=
  ((fields.filter (fun p => p.1 == key)).getLast?).map (fun p => p.2)

/-- plaidError (errors.go): the error shape returned by the Plaid service,
plus the transport status code which the callers set manually. -/
structure PlaidError where
  errorCode : String
  errorType : String
  errorMessage : String
  displayMessage : String
  statusCode : Nat
deriving DecidableEq, Repr

/-- A Go error value as produced by this library: a json.Unmarshal error,
an errors.New error, or a plaidError used as an error. -/
inductive GoErr where
  | jsonErr (msg : String)
  | newErr (msg : String)
  | plaidErr (e : PlaidError)
deriving DecidableEq, Repr

/-- The method (e plaidError) Error() string (errors.go line 18): a
fmt.Sprintf with four %s verbs receiving ErrorCode, ErrorType, ErrorMessage
and DisplayMessage in that order.  The first verb is labelled
"http status:" in the format string but receives ErrorCode; the StatusCode
field is never passed to the formatter. -/
def PlaidError.goErrorString (e : PlaidError) : String :=
  "Plaid Error - http status: " ++ e.errorCode ++ ", code: " ++ e.errorType ++
    ", message: " ++ e.errorMessage ++ ", display: " ++ e.displayMessage

/-- json.Unmarshal of a JSON value into a Go string field: absent keys and
null leave the zero value "", a string is taken verbatim, anything else is an
unmarshal type error. -/
def decodeStringField : Option Json → Except GoErr String
  | none => .ok ""
  | some .null => .ok ""
  | some (.str s) => .ok s
  | some _ => .error (.jsonErr "cannot unmarshal into string field")

/-- json.Unmarshal into a Go int field. -/
def decodeIntField : Option Json → Except GoErr Int
  | none => .ok 0
  | some .null => .ok 0
  | some (.num n) => .ok n
  | some _ => .error (.jsonErr "cannot unmarshal into int field")

/-- json.Unmarshal into a Go bool field. -/
def decodeBoolField : Option Json → Except GoErr Bool
  | none => .ok false
  | some .null => .ok false
  | some (.bool b) => .ok b
  | some _ => .error (.jsonErr "cannot unmarshal into bool field")

/-- json.Unmarshal of one JSON array element into a string slot. -/
def decodeStringElem : Json → Except GoErr String
  | .null => .ok ""
  | .str s => .ok s
  | _ => .error (.jsonErr "cannot unmarshal into string field")

/-- json.Unmarshal into a Go []string field: absent or null is the nil
slice, an array decodes element-wise, anything else is a type error. -/
def decodeStringListField : Option Json → Except GoErr (List String)
  | none => .ok []
  | some .null => .ok []
  | some (.arr xs) => xs.mapM decodeStringElem
  | some _ => .error (.jsonErr "cannot unmarshal into string slice field")

/-- Go string(i) for a nonnegative int i: a one-rune string holding the code
point i, or the replacement character U+FFFD when i is not a valid code
point. -/
def goStringOfRune (n : Nat) : String :=
  if n.isValidChar then String.singleton (Char.ofNat n)
  else String.singleton (Char.ofNat 0xFFFD)

/-- The nested Balances struct of Account (plaid.go lines 46-50). -/
structure Balances where
  limit : Int
  available : Int
  current : Int

/-- The nested Location struct of Transaction (plaid.go lines 65-73). -/
structure Location where
  zip : String
  state : String
  storeNumber : String
  lon : Int
  city : String
  lat : Int
  address : String

/-- The nested PaymentMeta struct of Transaction (plaid.go lines 76-85). -/
structure PaymentMeta where
  reason : String
  payee : String
  ppdID : String
  payer : String
  byOrderOf : String
  referenceNumber : String
  paymentProcessor : String
  paymentMethod : String

/-- Transaction (plaid.go lines 55-86). -/
structure Transaction where
  pendingTransactionID : String
  name : String
  accountOwner : String
  category : List String
  transactionType : String
  accountID : String
  amount : Int
  date : String
  transactionID : String
  location : Location
  categoryID : String
  pending : Bool
  paymentMeta : PaymentMeta

/-- Account (plaid.go lines 40-53). -/
structure Account where
  transactions : List Transaction
  type : String
  mask : String
  name : String
  accountID : String
  balances : Balances
  subtype : String
  officialName : String

/-- Item (plaid.go lines 131-135). -/
structure Item where
  institutionId : String
  itemId : String
  webhook : String

/-- postResponse (plaid.go lines 120-130). -/
structure PostResponse where
  accessToken : String
  accountId : String
  accounts : List Account
  bankAccountToken : String
  mfa : String
  transactions : List Transaction
  totalTransactions : Int
  item : Item

/-- The Go zero value of Location. -/
def Location.zero : Location := ⟨"", "", "", 0, "", 0, ""⟩

/-- The Go zero value of PaymentMeta. -/
def PaymentMeta.zero : PaymentMeta := ⟨"", "", "", "", "", "", "", ""⟩

/-- The Go zero value of Balances. -/
def Balances.zero : Balances := ⟨0, 0, 0⟩

/-- The Go zero value of Item. -/
def Item.zero : Item := ⟨"", "", ""⟩

/-- json.Unmarshal into the Balances struct. -/
def decodeBalances : Json → Except GoErr Balances
  | .null => .ok Balances.zero
  | .obj fields => do
    let limit ← decodeIntField (lookupField fields "limit")
    let available ← decodeIntField (lookupField fields "available")
    let current ← decodeIntField (lookupField fields "current")
    .ok ⟨limit, available, current⟩
  | _ => .error (.jsonErr "cannot unmarshal into Balances")

/-- json.Unmarshal into the Location struct. -/
def decodeLocation : Json → Except GoErr Location
  | .null => .ok Location.zero
  | .obj fields => do
    let zip ← decodeStringField (lookupField fields "zip")
    let state ← decodeStringField (lookupField fields "state")
    let storeNumber ← decodeStringField (lookupField fields "store_number")
    let lon ← decodeIntField (lookupField fields "lon")
    let city ← decodeStringField (lookupField fields "city")
    let lat ← decodeIntField (lookupField fields "lat")
    let address ← decodeStringField (lookupField fields "address")
    .ok ⟨zip, state, storeNumber, lon, city, lat, address⟩
  | _ => .error (.jsonErr "cannot unmarshal into Location")

/-- json.Unmarshal into the PaymentMeta struct. -/
def decodePaymentMeta : Json → Except GoErr PaymentMeta
  | .null => .ok PaymentMeta.zero
  | .obj fields => do
    let reason ← decodeStringField (lookupField fields "reason")
    let payee ← decodeStringField (lookupField fields "payee")
    let ppdID ← decodeStringField (lookupField fields "ppd_id")
    let payer ← decodeStringField (lookupField fields "payer")
    let byOrderOf ← decodeStringField (lookupField fields "by_order_of")
    let referenceNumber ← decodeStringField (lookupField fields "reference_number")
    let paymentProcessor ← decodeStringField (lookupField fields "payment_processor")
    let paymentMethod ← decodeStringField (lookupField fields "payment_method")
    .ok ⟨reason, payee, ppdID, payer, byOrderOf, referenceNumber, paymentProcessor, paymentMethod⟩
  | _ => .error (.jsonErr "cannot unmarshal into PaymentMeta")

/-- json.Unmarshal of a nested Location field: absent keys keep the zero
value. -/
def decodeLocationField : Option Json → Except GoErr Location
  | none => .ok Location.zero
  | some j => decodeLocation j

/-- json.Unmarshal of a nested PaymentMeta field. -/
def decodePaymentMetaField : Option Json → Except GoErr PaymentMeta
  | none => .ok PaymentMeta.zero
  | some j => decodePaymentMeta j

/-- json.Unmarshal of a nested Balances field. -/
def decodeBalancesField : Option Json → Except GoErr Balances
  | none => .ok Balances.zero
  | some j => decodeBalances j

/-- json.Unmarshal into the Transaction struct. -/
def decodeTransaction : Json → Except GoErr Transaction
  | .null => .ok ⟨"", "", "", [], "", "", 0, "", "", Location.zero, "", false, PaymentMeta.zero⟩
  | .obj fields => do
    let pendingTransactionID ← decodeStringField (lookupField fields "pending_transaction_id")
    let name ← decodeStringField (lookupField fields "name")
    let accountOwner ← decodeStringField (lookupField fields "account_owner")
    let category ← decodeStringListField (lookupField fields "category")
    let transactionType ← decodeStringField (lookupField fields "transaction_type")
    let accountID ← decodeStringField (lookupField fields "account_id")
    let amount ← decodeIntField (lookupField fields "amount")
    let date ← decodeStringField (lookupField fields "date")
    let transactionID ← decodeStringField (lookupField fields "transaction_id")
    let location ← decodeLocationField (lookupField fields "location")
    let categoryID ← decodeStringField (lookupField fields "category_id")
    let pending ← decodeBoolField (lookupField fields "pending")
    let paymentMeta ← decodePaymentMetaField (lookupField fields "payment_meta")
    .ok ⟨pendingTransactionID, name, accountOwner, category, transactionType, accountID,
      amount, date, transactionID, location, categoryID, pending, paymentMeta⟩
  | _ => .error (.jsonErr "cannot unmarshal into Transaction")

/-- json.Unmarshal into a []Transaction field. -/
def decodeTransactionListField : Option Json → Except GoErr (List Transaction)
  | none => .ok []
  | some .null => .ok []
  | some (.arr xs) => xs.mapM decodeTransaction
  | some _ => .error (.jsonErr "cannot unmarshal into Transaction slice")

/-- json.Unmarshal into the Account struct. -/
def decodeAccount : Json → Except GoErr Account
  | .null => .ok ⟨[], "", "", "", "", Balances.zero, "", ""⟩
  | .obj fields => do
    let transactions ← decodeTransactionListField (lookupField fields "transactions")
    let type ← decodeStringField (lookupField fields "type")
    let mask ← decodeStringField (lookupField fields "mask")
    let name ← decodeStringField (lookupField fields "name")
    let accountID ← decodeStringField (lookupField fields "account_id")
    let balances ← decodeBalancesField (lookupField fields "balances")
    let subtype ← decodeStringField (lookupField fields "subtype")
    let officialName ← decodeStringField (lookupField fields "official_name")
    .ok ⟨transactions, type, mask, name, accountID, balances, subtype, officialName⟩
  | _ => .error (.jsonErr "cannot unmarshal into Account")

/-- json.Unmarshal into an []Account field. -/
def decodeAccountListField : Option Json → Except GoErr (List Account)
  | none => .ok []
  | some .null => .ok []
  | some (.arr xs) => xs.mapM decodeAccount
  | some _ => .error (.jsonErr "cannot unmarshal into Account slice")

/-- json.Unmarshal into the Item struct. -/
def decodeItem : Json → Except GoErr Item
  | .null => .ok Item.zero
  | .obj fields => do
    let institutionId ← decodeStringField (lookupField fields "institution_id")
    let itemId ← decodeStringField (lookupField fields "item_id")
    let webhook ← decodeStringField (lookupField fields "webhook")
    .ok ⟨institutionId, itemId, webhook⟩
  | _ => .error (.jsonErr "cannot unmarshal into Item")

/-- json.Unmarshal of a nested Item field. -/
def decodeItemField : Option Json → Except GoErr Item
  | none => .ok Item.zero
  | some j => decodeItem j

/-- json.Unmarshal(body, &postRes) with postRes a postResponse
(plaid.go line 258): a missing body (invalid JSON) is a syntax error, a
non-object document is a type error, and each tagged field decodes by
Go's rules. -/
def unmarshalPostResponse : Option Json → Except GoErr PostResponse
  | none => .error (.jsonErr "invalid JSON")
  | some .null => .ok ⟨"", "", [], "", "", [], 0, Item.zero⟩
  | some (.obj fields) => do
    let accessToken ← decodeStringField (lookupField fields "access_token")
    let accountId ← decodeStringField (lookupField fields "account_id")
    let accounts ← decodeAccountListField (lookupField fields "accounts")
    let bankAccountToken ← decodeStringField (lookupField fields "stripe_bank_account_token")
    let mfa ← decodeStringField (lookupField fields "mfa")
    let transactions ← decodeTransactionListField (lookupField fields "transactions")
    let totalTransactions ← decodeIntField (lookupField fields "total_transactions")
    let item ← decodeItemField (lookupField fields "item")
    .ok ⟨accessToken, accountId, accounts, bankAccountToken, mfa, transactions,
      totalTransactions, item⟩
  | some _ => .error (.jsonErr "cannot unmarshal into postResponse")

/-- mfaDevice (plaid.go lines 93-95). -/
structure MfaDevice where
  message : String
deriving DecidableEq, Repr

/-- mfaList (plaid.go lines 96-99). -/
structure MfaList where
  mask : String
  type : String
deriving DecidableEq, Repr

/-- mfaQuestion (plaid.go lines 100-102). -/
structure MfaQuestion where
  question : String
deriving DecidableEq, Repr

/-- mfaSelection (plaid.go lines 103-106). -/
structure MfaSelection where
  answers : List String
  question : String
deriving DecidableEq, Repr

/-- mfaResponse (plaid.go lines 110-118): the union of all mfa types; users
switch on the type field. -/
structure MfaResponse where
  accessToken : String
  type : String
  device : MfaDevice
  list : List MfaList
  questions : List MfaQuestion
  selections : List MfaSelection
deriving DecidableEq, Repr

/-- mfaIntermediate (plaid.go lines 88-92): access_token and type are
strings, mfa is decoded into an untyped interface value.  A nil interface
(absent key or JSON null) is modelled by Json.null. -/
structure MfaIntermediate where
  accessToken : String
  mfa : Json
  type : String

/-- json.Unmarshal(body, &mfaInter) (plaid.go line 266). -/
def unmarshalMfaIntermediate : Option Json → Except GoErr MfaIntermediate
  | none => .error (.jsonErr "invalid JSON")
  | some .null => .ok ⟨"", .null, ""⟩
  | some (.obj fields) => do
    let accessToken ← decodeStringField (lookupField fields "access_token")
    let mfa := (lookupField fields "mfa").getD .null
    let ty ← decodeStringField (lookupField fields "type")
    .ok ⟨accessToken, mfa, ty⟩
  | some _ => .error (.jsonErr "cannot unmarshal into mfaIntermediate")

/-- The device arm (plaid.go lines 271-284): the interface assertion fails on
a nil mfa, the map assertion requires a JSON object, and the message key must
hold a string. -/
def decodeDeviceMfa : Json → Except GoErr MfaDevice
  | .null => .error (.newErr "Could not decode device mfa")
  | .obj fields =>
    match lookupField fields "message" with
    | some (.str s) => .ok ⟨s⟩
    | _ => .error (.newErr "Could not decode device mfa")
  | _ => .error (.newErr "Could not decode device mfa")

/-- The loop body of the list arm (plaid.go lines 291-305): each element must
be a JSON object whose mask and type keys hold strings. -/
def decodeListItems : List Json → Except GoErr (List MfaList)
  | [] => .ok []
  | v :: rest =>
    match v with
    | .obj fields =>
      match lookupField fields "mask" with
      | some (.str maskText) =>
        match lookupField fields "type" with
        | some (.str typeText) => do
          let tail ← decodeListItems rest
          .ok (⟨maskText, typeText⟩ :: tail)
        | _ => .error (.newErr "Could not decode list mfa")
      | _ => .error (.newErr "Could not decode list mfa")
    | _ => .error (.newErr "Could not decode list mfa")

/-- The list arm (plaid.go lines 286-305): mfa must be a JSON array. -/
def decodeListMfa : Json → Except GoErr (List MfaList)
  | .arr elems => decodeListItems elems
  | _ => .error (.newErr "Could not decode list mfa")

/-- The loop body of the questions arm (plaid.go lines 312-322). -/
def decodeQuestionItems : List Json → Except GoErr (List MfaQuestion)
  | [] => .ok []
  | v :: rest =>
    match v with
    | .obj fields =>
      match lookupField fields "question" with
      | some (.str questionText) => do
        let tail ← decodeQuestionItems rest
        .ok (⟨questionText⟩ :: tail)
      | _ => .error (.newErr "Could not decode questions mfa question")
    | _ => .error (.newErr "Could not decode questions mfa")

/-- The questions arm (plaid.go lines 307-322). -/
def decodeQuestionsMfa : Json → Except GoErr (List MfaQuestion)
  | .arr elems => decodeQuestionItems elems
  | _ => .error (.newErr "Could not decode questions mfa")

/-- The answers loop of the selections arm (plaid.go lines 338-341): a failed
string assertion stores "" and clears the ok flag, but the flag is only
examined after the loop, so it reflects the last element alone. -/
def selectionAnswerStrings (answers : List Json) : List String :=
  answers.map (fun a => match a with | .str s => s | _ => "")

/-- The ok flag as it stands after the answers loop (plaid.go line 342):
true when the answers array is empty (the flag still holds the result of the
earlier array assertion) or when its last element is a string. -/
def lastAnswerOk (answers : List Json) : Bool :=
  match answers.getLast? with
  | none => true
  | some (.str _) => true
  | some _ => false

/-- The loop body of the selections arm (plaid.go lines 329-350), including
the misplaced ok check after the answers loop. -/
def decodeSelectionItems : List Json → Except GoErr (List MfaSelection)
  | [] => .ok []
  | v :: rest =>
    match v with
    | .obj fields =>
      match lookupField fields "answers" with
      | some (.arr tempAnswers) =>
        if lastAnswerOk tempAnswers then
          match lookupField fields "question" with
          | some (.str question) => do
            let tail ← decodeSelectionItems rest
            .ok (⟨selectionAnswerStrings tempAnswers, question⟩ :: tail)
          | _ => .error (.newErr "Could not decode selections questions")
        else .error (.newErr "Could not decode selections answers")
      | _ => .error (.newErr "Could not decode selections answers")
    | _ => .error (.newErr "Could not decode selections mfa")

/-- The selections arm (plaid.go lines 324-350). -/
def decodeSelectionsMfa : Json → Except GoErr (List MfaSelection)
  | .arr elems => decodeSelectionItems elems
  | _ => .error (.newErr "Could not decode selections mfa")

/-- The Go zero value of mfaResponse's variant payloads. -/
def MfaResponse.base (accessToken ty : String) : MfaResponse :=
  ⟨accessToken, ty, ⟨""⟩, [], [], []⟩

/-- The whole status-201 branch of unmarshalPostMFA (plaid.go lines 265-352):
unmarshal the intermediate shape, then switch on the type tag; a tag outside
the four known ones leaves every variant payload empty. -/
def decodeMfaBranch (body : Option Json) : Except GoErr MfaResponse := do
  let mfaInter ← unmarshalMfaIntermediate body
  let base := MfaResponse.base mfaInter.accessToken mfaInter.type
  match mfaInter.type with
  | "device" => do
    let d ← decodeDeviceMfa mfaInter.mfa
    .ok { base with device := d }
  | "list" => do
    let l ← decodeListMfa mfaInter.mfa
    .ok { base with list := l }
  | "questions" => do
    let qs ← decodeQuestionsMfa mfaInter.mfa
    .ok { base with questions := qs }
  | "selections" => do
    let sels ← decodeSelectionsMfa mfaInter.mfa
    .ok { base with selections := sels }
  | _ => .ok base

/-- json.Unmarshal(body, &plaidErr) (plaid.go line 357) for the plaidError
shape of errors.go lines 7-16; the untagged StatusCode field is left at zero
and set by the caller afterwards. -/
def unmarshalPlaidError : Option Json → Except GoErr PlaidError
  | none => .error (.jsonErr "invalid JSON")
  | some .null => .ok ⟨"", "", "", "", 0⟩
  | some (.obj fields) => do
    let errorCode ← decodeStringField (lookupField fields "error_code")
    let errorType ← decodeStringField (lookupField fields "error_type")
    let errorMessage ← decodeStringField (lookupField fields "error_message")
    let displayMessage ← decodeStringField (lookupField fields "display_message")
    .ok ⟨errorCode, errorType, errorMessage, displayMessage, 0⟩
  | some _ => .error (.jsonErr "cannot unmarshal into plaidError")

/-- unmarshalPostMFA (plaid.go lines 250-364): the three-way decoder.  The
Go function returns the triple (*postResponse, *mfaResponse, error); a nil
pointer or nil error is modelled by none. -/
def unmarshalPostMFA (statusCode : Nat) (body : Option Json) :
    Option PostResponse × Option MfaResponse × Option GoErr :=
  if statusCode = 200 then
    match unmarshalPostResponse body with
    | .ok postRes => (some postRes, none, none)
    | .error e => (none, none, some e)
  else if statusCode = 201 then
    match decodeMfaBranch body with
    | .ok mfaRes => (none, some mfaRes, none)
    | .error e => (none, none, some e)
  else if 400 ≤ statusCode then
    match unmarshalPlaidError body with
    | .ok plaidErr => (none, none, some (.plaidErr { plaidErr with statusCode := statusCode }))
    | .error e => (none, none, some e)
  else
    (none, none, some (.newErr ("Unknown Plaid Error - Status:" ++ goStringOfRune statusCode)))

/-- The response-handling tail of Client.Transactions (plaid.go lines
387-388): postRes, _, err = c.postAndUnmarshal(...); return postRes, err.
The mfaResponse component of the decoder's triple is discarded. -/
def Transactions (statusCode : Nat) (body : Option Json) :
    Option PostResponse × Option GoErr :=
  let r := unmarshalPostMFA statusCode body
  (r.1, r.2.2)

/-- TransactionOptionsJson (plaid.go lines 400-403). -/
structure TransactionOptionsJson where
  count : Int
  offset : Int
deriving DecidableEq, Repr

/-- transactionJson (plaid.go lines 391-398): the request envelope sent by
Client.Transactions. -/
structure TransactionJson where
  clientID : String
  secret : String
  accessToken : String
  startDate : String
  endDate : String
  options : TransactionOptionsJson
deriving DecidableEq, Repr

/-- json.Marshal of a transactionJson value (plaid.go line 376): an object
with the six tagged fields, options marshalled as a nested object. -/
def TransactionJson.marshal (t : TransactionJson) : Json :=
  .obj [("client_id", .str t.clientID),
        ("secret", .str t.secret),
        ("access_token", .str t.accessToken),
        ("start_date", .str t.startDate),
        ("end_date", .str t.endDate),
        ("options", .obj [("count", .num t.options.count),
                          ("offset", .num t.options.offset)])]

/-- json.Unmarshal into the TransactionOptionsJson struct, by the tags of
plaid.go lines 400-403. -/
def decodeTransactionOptions : Json → Except GoErr TransactionOptionsJson
  | .null => .ok ⟨0, 0⟩
  | .obj fields => do
    let count ← decodeIntField (lookupField fields "count")
    let offset ← decodeIntField (lookupField fields "offset")
    .ok ⟨count, offset⟩
  | _ => .error (.jsonErr "cannot unmarshal into TransactionOptionsJson")

/-- json.Unmarshal of a whole document into transactionJson, by the tags of
plaid.go lines 391-398 (this is the re-parsing half of the round-trip
property; the struct tags come from the source). -/
def unmarshalTransactionJson : Option Json → Except GoErr TransactionJson
  | none => .error (.jsonErr "invalid JSON")
  | some .null => .ok ⟨"", "", "", "", "", ⟨0, 0⟩⟩
  | some (.obj fields) => do
    let clientID ← decodeStringField (lookupField fields "client_id")
    let secret ← decodeStringField (lookupField fields "secret")
    let accessToken ← decodeStringField (lookupField fields "access_token")
    let startDate ← decodeStringField (lookupField fields "start_date")
    let endDate ← decodeStringField (lookupField fields "end_date")
    let options ← match lookupField fields "options" with
      | none => pure (⟨0, 0⟩ : TransactionOptionsJson)
      | some j => decodeTransactionOptions j
    .ok ⟨clientID, secret, accessToken, startDate, endDate, options⟩
  | some _ => .error (.jsonErr "cannot unmarshal into transactionJson")

/-- Institution (institutions.go lines 184-186). -/
structure Institution where
  name : String
deriving DecidableEq, Repr

/-- InstitutionJson (institutions.go lines 180-182). -/
structure InstitutionJson where
  institution : Institution
deriving DecidableEq, Repr

/-- json.Unmarshal into the nested Institution struct. -/
def decodeInstitution : Json → Except GoErr Institution
  | .null => .ok ⟨""⟩
  | .obj fields => do
    let name ← decodeStringField (lookupField fields "name")
    .ok ⟨name⟩
  | _ => .error (.jsonErr "cannot unmarshal into Institution")

/-- json.Unmarshal(body, &institutionResult) (institutions.go line 29). -/
def unmarshalInstitutionJson : Option Json → Except GoErr InstitutionJson
  | none => .error (.jsonErr "invalid JSON")
  | some .null => .ok ⟨⟨""⟩⟩
  | some (.obj fields) => do
    let institution ← match lookupField fields "institution" with
      | none => pure (⟨""⟩ : Institution)
      | some j => decodeInstitution j
    .ok ⟨institution⟩
  | some _ => .error (.jsonErr "cannot unmarshal into InstitutionJson")

/-- The decode tail of GetInstitutionById (institutions.go lines 28-33): the
body is unmarshalled into a zero-valued InstitutionJson; an unmarshal error
is only passed to fmt.Println, and the institution name (still the zero
value "" on error) is returned.  The printed error is exposed as the second
component so that the logging side effect is observable; the Go function
itself returns only the string. -/
def GetInstitutionById (body : Option Json) : String × Option GoErr :=
  match unmarshalInstitutionJson body with
  | .ok institutionResult => (institutionResult.institution.name, none)
  | .error marshalErr => ("", some marshalErr)

/-- Char.toNat is a left inverse of Char.ofNat on valid code points. -/
theorem toNat_ofNat_valid (n : Nat) (h : n.isValidChar) : (Char.ofNat n).toNat = n := by
  simp [Char.ofNat, h, Char.toNat, Char.ofNatAux, UInt32.toNat, BitVec.toNat_ofNatLt]

/-- Two equal one-character strings hold the same character. -/
theorem stringSingleton_inj (c d : Char) (h : String.singleton c = String.singleton d) :
    c = d := by
  have h2 := congrArg String.data h
  simpa [String.singleton] using h2

/-- Below 400 (where HTTP status codes outside the known set live), Go's
string(i) conversion is injective, so the unknown-status message determines
the status code. -/
theorem goStringOfRune_inj_below_400 (s t : Nat) (hs : s < 400) (ht : t < 400)
    (h : goStringOfRune s = goStringOfRune t) : s = t := by
  have hs' : s.isValidChar := Or.inl (by omega)
  have ht' : t.isValidChar := Or.inl (by omega)
  unfold goStringOfRune at h
  rw [if_pos hs', if_pos ht'] at h
  have hc := stringSingleton_inj _ _ h
  have h1 := toNat_ofNat_valid s hs'
  have h2 := toNat_ofNat_valid t ht'
  rw [← h1, ← h2, hc]

/-- Every return path of unmarshalPostMFA populates exactly one component of
the (postResponse, mfaResponse, error) triple. -/
theorem unmarshalPostMFA_shape (s : Nat) (b : Option Json) :
    (∃ p, unmarshalPostMFA s b = (some p, none, none)) ∨
    (∃ m, unmarshalPostMFA s b = (none, some m, none)) ∨
    (∃ e, unmarshalPostMFA s b = (none, none, some e)) := by
  unfold unmarshalPostMFA
  repeat' split
  all_goals first
    | exact .inl ⟨_, rfl⟩
    | exact .inr (.inl ⟨_, rfl⟩)
    | exact .inr (.inr ⟨_, rfl⟩)

/-- How many of the three outcome components are populated. -/
def outcomeCount (r : Option PostResponse × Option MfaResponse × Option GoErr) : Nat :=
  (if r.1.isSome then 1 else 0) + (if r.2.1.isSome then 1 else 0) +
    (if r.2.2.isSome then 1 else 0)

/-- Claim C1: for every status code and every raw response body,
unmarshalPostMFA populates exactly one of the three outcome components
(success payload, challenge payload, error) and leaves the other two empty,
so a caller can pattern-match on outcome kind without ambiguity. -/
theorem c1_exactly_one_outcome (s : Nat) (b : Option Json) :
    outcomeCount (unmarshalPostMFA s b) = 1 := by
  rcases unmarshalPostMFA_shape s b with ⟨p, h⟩ | ⟨m, h⟩ | ⟨e, h⟩ <;> rw [h] <;> rfl

/-- Claim C9: decoding is deterministic; unmarshalPostMFA is a pure function
of the status code and body, so decoding the same inputs twice yields equal
outcomes. -/
theorem c9_decode_deterministic (s : Nat) (b : Option Json) :
    unmarshalPostMFA s b = unmarshalPostMFA s b := rfl

/-- Claim C2: unmarshalPostMFA dispatches solely on the status code: 200
parses the body as the Success shape, 201 as the MFA challenge shape, 400
and above as the error shape with the status code attached, and any other
status yields the unknown-status error built from the raw status code (the
final conjunct shows that error determines the status code, so the code is
carried, not swallowed). -/
theorem c2_dispatch_on_status (s : Nat) (b : Option Json) :
    (s = 200 → unmarshalPostMFA s b =
      match unmarshalPostResponse b with
      | .ok p => (some p, none, none)
      | .error e => (none, none, some e))
  ∧ (s = 201 → unmarshalPostMFA s b =
      match decodeMfaBranch b with
      | .ok m => (none, some m, none)
      | .error e => (none, none, some e))
  ∧ (400 ≤ s → unmarshalPostMFA s b =
      match unmarshalPlaidError b with
      | .ok pe => (none, none, some (.plaidErr { pe with statusCode := s }))
      | .error e => (none, none, some e))
  ∧ (s ≠ 200 → s ≠ 201 → s < 400 →
      unmarshalPostMFA s b =
        (none, none, some (.newErr ("Unknown Plaid Error - Status:" ++ goStringOfRune s))))
  ∧ (s < 400 → ∀ t, t < 400 → goStringOfRune s = goStringOfRune t → s = t) := by
  refine ⟨?_, ?_, ?_, ?_, ?_⟩
  · intro h; subst h; rfl
  · intro h; subst h; rfl
  · intro h4
    have h200 : s ≠ 200 := by omega
    have h201 : s ≠ 201 := by omega
    unfold unmarshalPostMFA
    rw [if_neg h200, if_neg h201, if_pos h4]
  · intro h200 h201 hlt
    unfold unmarshalPostMFA
    rw [if_neg h200, if_neg h201, if_neg (by omega : ¬ 400 ≤ s)]
  · intro hs t ht h
    exact goStringOfRune_inj_below_400 s t hs ht h

/-- Witness for C2 at status 404 (error branch) and status 302 (unknown
status surfaced as an error). -/
theorem c2_dispatch_witness :
    unmarshalPostMFA 404 (some (.obj [])) =
      (none, none, some (.plaidErr ⟨"", "", "", "", 404⟩))
    ∧ unmarshalPostMFA 302 none =
      (none, none, some (.newErr ("Unknown Plaid Error - Status:" ++ goStringOfRune 302))) := by
  constructor
  · have h := (c2_dispatch_on_status 404 (some (.obj []))).2.2.1 (by omega)
    rw [h]; rfl
  · exact (c2_dispatch_on_status 302 none).2.2.2.1 (by decide) (by decide) (by omega)

/-- Claim C3, evaluated at the failing input: a selections challenge whose
answers array holds a non-string entry in a non-final position decodes
successfully (the entry becomes ""), because the source checks the
string-assertion flag only after the answers loop; the claim requires a
decode error here. -/
theorem c3_selections_bug_eval :
    unmarshalPostMFA 201 (some (.obj [("access_token", .str "tok"),
      ("type", .str "selections"),
      ("mfa", .arr [.obj [("question", .str "q"),
        ("answers", .arr [.str "x", .num 5, .str "y"])]])])) =
    (none, some ⟨"tok", "selections", ⟨""⟩, [], [], [⟨["x", "", "y"], "q"⟩]⟩, none) := rfl

/-- Claim C4, evaluated: the formatted string of a plaidError combines
ErrorCode, ErrorType, ErrorMessage and DisplayMessage but never the
StatusCode field; two errors differing only in status code format
identically, and the "http status" label is followed by the machine code. -/
theorem c4_status_not_in_error_string :
    PlaidError.goErrorString ⟨"ITEM_NOT_FOUND", "ITEM_ERROR", "msg", "disp", 404⟩ =
      "Plaid Error - http status: ITEM_NOT_FOUND, code: ITEM_ERROR, message: msg, display: disp"
    ∧ PlaidError.goErrorString ⟨"ITEM_NOT_FOUND", "ITEM_ERROR", "msg", "disp", 404⟩ =
      PlaidError.goErrorString ⟨"ITEM_NOT_FOUND", "ITEM_ERROR", "msg", "disp", 500⟩ :=
  ⟨rfl, rfl⟩

/-- Counterexample for C5: on a body that is not valid JSON,
GetInstitutionById hands the unmarshal error to fmt.Println only (second
component) and returns the zero-value institution name "" to the caller,
instead of returning the failure. -/
theorem c5_counterexample :
    GetInstitutionById none = ("", some (.jsonErr "invalid JSON")) := rfl

/-- Claim C5 as amended: inside the decoding core every failure is returned
as a typed error value and never converted into a success value, but
GetInstitutionById does not propagate: a decode failure is only printed and
the zero-value name is returned. -/
theorem c5_core_propagates_institution_suppresses :
    (∀ (s : Nat) (b : Option Json) (e : GoErr),
        (unmarshalPostMFA s b).2.2 = some e →
        (unmarshalPostMFA s b).1 = none ∧ (unmarshalPostMFA s b).2.1 = none)
  ∧ (∀ (b : Option Json) (e : GoErr),
        unmarshalInstitutionJson b = .error e →
        GetInstitutionById b = ("", some e)) := by
  constructor
  · intro s b e h
    rcases unmarshalPostMFA_shape s b with ⟨p, hh⟩ | ⟨m, hh⟩ | ⟨e2, hh⟩ <;>
      rw [hh] at h ⊢ <;> simp_all
  · intro b e h
    unfold GetInstitutionById
    rw [h]

/-- Witness for the amended C5 at a transport-level malformed body. -/
theorem c5_witness :
    ((unmarshalPostMFA 500 none).1 = none ∧ (unmarshalPostMFA 500 none).2.1 = none)
    ∧ GetInstitutionById none = ("", some (.jsonErr "invalid JSON")) :=
  ⟨c5_core_propagates_institution_suppresses.1 500 none (.jsonErr "invalid JSON") rfl,
   c5_core_propagates_institution_suppresses.2 none (.jsonErr "invalid JSON") rfl⟩

/-- Claim C6: a 201 challenge whose type tag is outside the four known ones
decodes without error, for any mfa sub-payload, into a Challenge carrying
only the access token and the tag, with all four variant payloads empty. -/
theorem c6_unknown_tag_permissive (tok ty : String) (mfa : Json)
    (h1 : ty ≠ "device") (h2 : ty ≠ "list") (h3 : ty ≠ "questions") (h4 : ty ≠ "selections") :
    unmarshalPostMFA 201
      (some (.obj [("access_token", .str tok), ("type", .str ty), ("mfa", mfa)])) =
    (none, some ⟨tok, ty, ⟨""⟩, [], [], []⟩, none) := by
  have hbranch : decodeMfaBranch
      (some (.obj [("access_token", .str tok), ("type", .str ty), ("mfa", mfa)])) =
      .ok (MfaResponse.base tok ty) := by
    show (match ty with
      | "device" => do
          let d ← decodeDeviceMfa mfa
          Except.ok { MfaResponse.base tok ty with device := d }
      | "list" => do
          let l ← decodeListMfa mfa
          Except.ok { MfaResponse.base tok ty with list := l }
      | "questions" => do
          let qs ← decodeQuestionsMfa mfa
          Except.ok { MfaResponse.base tok ty with questions := qs }
      | "selections" => do
          let sels ← decodeSelectionsMfa mfa
          Except.ok { MfaResponse.base tok ty with selections := sels }
      | _ => Except.ok (MfaResponse.base tok ty)) = .ok (MfaResponse.base tok ty)
    split
    · simp_all
    · simp_all
    · simp_all
    · simp_all
    · rfl
  unfold unmarshalPostMFA
  rw [hbranch]; rfl

/-- Witness for C6 at the unrecognized tag "unknown_tag" with a numeric mfa
payload. -/
theorem c6_unknown_tag_witness :
    unmarshalPostMFA 201
      (some (.obj [("access_token", .str "t"), ("type", .str "unknown_tag"), ("mfa", .num 3)])) =
    (none, some ⟨"t", "unknown_tag", ⟨""⟩, [], [], []⟩, none) :=
  c6_unknown_tag_permissive "t" "unknown_tag" (.num 3)
    (by decide) (by decide) (by decide) (by decide)

/-- Claim C7: a 404 response with a well-formed error body decodes to a
Failure carrying statusCode 404 and the three message fields verbatim (the
display message, absent from the body, stays at its zero value). -/
theorem c7_404_error_verbatim (m : String) :
    unmarshalPostMFA 404 (some (.obj [("error_code", .str "ITEM_NOT_FOUND"),
      ("error_type", .str "ITEM_ERROR"), ("error_message", .str m)])) =
    (none, none, some (.plaidErr ⟨"ITEM_NOT_FOUND", "ITEM_ERROR", m, "", 404⟩)) := rfl

/-- Claim C8: when the decoder produces an MFA challenge at status 201, the
Transactions wrapper discards it and hands the caller neither a result nor
an error. -/
theorem c8_transactions_drops_challenge (b : Option Json)
    (h : (unmarshalPostMFA 201 b).2.1.isSome = true) :
    Transactions 201 b = (none, none) := by
  rcases unmarshalPostMFA_shape 201 b with ⟨p, hh⟩ | ⟨m, hh⟩ | ⟨e, hh⟩ <;>
    unfold Transactions <;> rw [hh] at h ⊢ <;> simp_all

/-- Witness for C8 at a decodable device challenge body. -/
theorem c8_witness :
    Transactions 201 (some (.obj [("access_token", .str "tok"), ("type", .str "device"),
      ("mfa", .obj [("message", .str "call your bank")])])) = (none, none) :=
  c8_transactions_drops_challenge _ rfl

/-- Claim C10: serializing a transactions request envelope to JSON and
re-parsing it yields a value field-for-field equal to the original. -/
theorem c10_envelope_roundtrip (t : TransactionJson) :
    unmarshalTransactionJson (some (TransactionJson.marshal t)) = .ok t := by
  rcases t with ⟨c, sec, a, d1, d2, ⟨n, m⟩⟩
  rfl
